import Mathlib

/-!
Verification of the payroll tax engine of the Resconate HR application.

The engine lives in server.js in three divergent implementations:
`calculatePAYE` (a bracket walk over a table, used by the payroll route),
`calculateNigerianPAYE` (a cascading if/else band table) and
`calculateNigerianTaxes` (the compliance variant with a consolidated
relief allowance).  JavaScript numbers are modelled as exact rationals;
`Math.round` rounds half toward positive infinity, modelled by `jsRound`.
-/

namespace Resconate

/-- JavaScript `Math.round`: round to the nearest integer, half toward
positive infinity. -/
def jsRound (x : ℚ) : ℤ := ⌊x + 1/2⌋

/-- A PAYE tax bracket as in the table of `calculatePAYE` (server.js):
`min`, `max` (`none` models `Infinity`) and `rate`. -/
structure TaxBracket where
  min : ℚ
  max : Option ℚ
  rate : ℚ

/-- The 2024 bracket table of `calculatePAYE` (server.js). -/
def taxBrackets : List TaxBracket :=
  [⟨0, some 300000, 7/100⟩,
   ⟨300000, some 600000, 11/100⟩,
   ⟨600000, some 1100000, 15/100⟩,
   ⟨1100000, some 1600000, 19/100⟩,
   ⟨1600000, some 3200000, 21/100⟩,
   ⟨3200000, none, 24/100⟩]

/-- `Math.min(remainingIncome, bracket.max - bracket.min)` in
`calculatePAYE`; when `bracket.max` is `Infinity` the width is infinite
and the minimum is the (finite) remaining income. -/
def payeTaxable (b : TaxBracket) (remaining : ℚ) : ℚ :=
  match b.max with
  | some m => Min.min remaining (m - b.min)
  | none => remaining

/-- The accumulation loop of `calculatePAYE`: walk the brackets in order,
stop as soon as the remaining income is `<= 0`, otherwise tax the portion
falling in the bracket and subtract it from the remaining income. -/
def payeLoop : List TaxBracket → ℚ → ℚ → ℚ
  | [], _, tax => tax
  | b :: rest, remaining, tax =>
    if remaining ≤ 0 then tax
    else payeLoop rest (remaining - payeTaxable b remaining)
      (tax + payeTaxable b remaining * b.rate)

/-- `calculatePAYE` (server.js): bracket walk over the annual income,
then divided by 12 to convert to a monthly figure. -/
def calculatePAYE (annualIncome : ℚ) : ℚ :=
  payeLoop taxBrackets annualIncome 0 / 12

/-- The per-employee record built by the `/api/payroll/process` route. -/
structure PayrollEntry where
  grossPay : ℚ
  paye : ℚ
  nhf : ℚ
  nsitf : ℚ
  itf : ℚ
  totalDeductions : ℚ
  netPay : ℚ

/-- Per-employee body of the `/api/payroll/process` route (server.js):
gross pay is `salary + allowances`; `calculatePAYE` is applied directly to
the monthly gross; NHF, NSITF and ITF are flat rates with no cap; no
pension is computed and the deduction total has no pension term. -/
def processPayrollEntry (salary allowances : ℚ) : PayrollEntry :=
  let grossPay := salary + allowances
  let paye := calculatePAYE grossPay
  let nhf := grossPay * (25/1000)
  let nsitf := grossPay * (1/100)
  let itf := grossPay * (1/100)
  let totalDeductions := paye + nhf + nsitf + itf
  ⟨grossPay, paye, nhf, nsitf, itf, totalDeductions, grossPay - totalDeductions⟩

/-- `calculateNigerianPAYE` (server.js): annualise the monthly gross and
pension, subtract the annual pension, run a cascading if/else band table
(the first 300,000 is untaxed), divide by 12 and apply `Math.round`. -/
def calculateNigerianPAYE (grossSalary pensionContribution : ℚ) : ℚ :=
  let annualGross := grossSalary * 12
  let annualPension := pensionContribution * 12
  let taxableIncome := annualGross - annualPension
  let tax : ℚ :=
    if 300000 < taxableIncome then
      if taxableIncome ≤ 600000 then (taxableIncome - 300000) * (7/100)
      else if taxableIncome ≤ 1100000 then 21000 + (taxableIncome - 600000) * (11/100)
      else if taxableIncome ≤ 1600000 then 76000 + (taxableIncome - 1100000) * (15/100)
      else if taxableIncome ≤ 3200000 then 151000 + (taxableIncome - 1600000) * (19/100)
      else 455000 + (taxableIncome - 3200000) * (21/100)
    else 0
  (jsRound (tax / 12) : ℚ)

/-- `totalIncome` in `calculateNigerianTaxes` (server.js). -/
def nigerianTotalIncome (grossSalary allowances : ℚ) : ℚ :=
  grossSalary + allowances

/-- `consolidatedAllowance` in `calculateNigerianTaxes` (server.js):
one percent of total income plus 200,000, at most 2,400,000. -/
def nigerianCRA (grossSalary allowances : ℚ) : ℚ :=
  Min.min (nigerianTotalIncome grossSalary allowances * (1/100) + 200000) 2400000

/-- `taxableIncome` in `calculateNigerianTaxes` (server.js): total income
minus the consolidated relief allowance, clamped at zero. -/
def nigerianTaxable (grossSalary allowances : ℚ) : ℚ :=
  Max.max 0 (nigerianTotalIncome grossSalary allowances - nigerianCRA grossSalary allowances)

/-- The PAYE bracket cascade of `calculateNigerianTaxes` (server.js), as
a function of the taxable income. -/
def nigerianPayeCascade (t : ℚ) : ℚ :=
  if t ≤ 300000 then t * (7/100)
  else if t ≤ 600000 then 300000 * (7/100) + (t - 300000) * (11/100)
  else if t ≤ 1100000 then
    300000 * (7/100) + 300000 * (11/100) + (t - 600000) * (15/100)
  else if t ≤ 1600000 then
    300000 * (7/100) + 300000 * (11/100) + 500000 * (15/100) + (t - 1100000) * (19/100)
  else if t ≤ 3200000 then
    300000 * (7/100) + 300000 * (11/100) + 500000 * (15/100) + 500000 * (19/100) +
      (t - 1600000) * (21/100)
  else
    300000 * (7/100) + 300000 * (11/100) + 500000 * (15/100) + 500000 * (19/100) +
      1600000 * (21/100) + (t - 3200000) * (24/100)

/-- The unrounded `paye` of `calculateNigerianTaxes`. -/
def nigerianPayeRaw (grossSalary allowances : ℚ) : ℚ :=
  nigerianPayeCascade (nigerianTaxable grossSalary allowances)

/-- The unrounded `pension` of `calculateNigerianTaxes`: 8 percent of
total income, no cap. -/
def nigerianPensionRaw (grossSalary allowances : ℚ) : ℚ :=
  nigerianTotalIncome grossSalary allowances * (8/100)

/-- The unrounded `nhf` of `calculateNigerianTaxes`: 2.5 percent of total
income, capped at 100,000. -/
def nigerianNhfRaw (grossSalary allowances : ℚ) : ℚ :=
  Min.min (nigerianTotalIncome grossSalary allowances * (25/1000)) 100000

/-- The unrounded `nsitf` of `calculateNigerianTaxes`: 1 percent. -/
def nigerianNsitfRaw (grossSalary allowances : ℚ) : ℚ :=
  nigerianTotalIncome grossSalary allowances * (1/100)

/-- The unrounded `itf` of `calculateNigerianTaxes`: 1 percent. -/
def nigerianItfRaw (grossSalary allowances : ℚ) : ℚ :=
  nigerianTotalIncome grossSalary allowances * (1/100)

/-- The unrounded deduction sum `paye + pension + nhf + nsitf + itf` of
`calculateNigerianTaxes`. -/
def nigerianDeductionsRaw (grossSalary allowances : ℚ) : ℚ :=
  nigerianPayeRaw grossSalary allowances + nigerianPensionRaw grossSalary allowances +
    nigerianNhfRaw grossSalary allowances + nigerianNsitfRaw grossSalary allowances +
    nigerianItfRaw grossSalary allowances

/-- The object returned by `calculateNigerianTaxes` (server.js). -/
structure NigerianTaxBreakdown where
  grossSalary : ℚ
  consolidatedAllowance : ℚ
  taxableIncome : ℚ
  paye : ℚ
  pension : ℚ
  nhf : ℚ
  nsitf : ℚ
  itf : ℚ
  totalDeductions : ℚ
  netSalary : ℚ

/-- `calculateNigerianTaxes` (server.js): the compliance variant.  Each
monetary field is passed through `Math.round`; `totalDeductions` rounds
the unrounded sum and `netSalary` rounds total income minus that sum. -/
def calculateNigerianTaxes (grossSalary allowances : ℚ) : NigerianTaxBreakdown :=
  ⟨nigerianTotalIncome grossSalary allowances,
   nigerianCRA grossSalary allowances,
   nigerianTaxable grossSalary allowances,
   (jsRound (nigerianPayeRaw grossSalary allowances) : ℚ),
   (jsRound (nigerianPensionRaw grossSalary allowances) : ℚ),
   (jsRound (nigerianNhfRaw grossSalary allowances) : ℚ),
   (jsRound (nigerianNsitfRaw grossSalary allowances) : ℚ),
   (jsRound (nigerianItfRaw grossSalary allowances) : ℚ),
   (jsRound (nigerianDeductionsRaw grossSalary allowances) : ℚ),
   (jsRound (nigerianTotalIncome grossSalary allowances -
       nigerianDeductionsRaw grossSalary allowances) : ℚ)⟩

/-- The reference bracket formula stated by the spec: the sum over the
2024 brackets of rate times `max 0 (min income upper - lower)`, with the
top bracket unbounded above. -/
def referencePAYE (income : ℚ) : ℚ :=
  (7/100) * Max.max 0 (Min.min income 300000) +
  (11/100) * Max.max 0 (Min.min income 600000 - 300000) +
  (15/100) * Max.max 0 (Min.min income 1100000 - 600000) +
  (19/100) * Max.max 0 (Min.min income 1600000 - 1100000) +
  (21/100) * Max.max 0 (Min.min income 3200000 - 1600000) +
  (24/100) * Max.max 0 (income - 3200000)

/-- Round-half-up to two decimal places, the rounding policy the spec
prescribes, for comparison with the rounding the code performs. -/
def specRound2 (x : ℚ) : ℚ :=
  (jsRound (x * 100) : ℚ) / 100

/-! ## Helper lemmas -/

set_option maxHeartbeats 1000000

lemma payeLoop_eq_ref (x : ℚ) (hx : 0 ≤ x) : payeLoop taxBrackets x 0 = referencePAYE x := by
  rcases eq_or_lt_of_le hx with h0 | h0
  · rw [← h0]
    norm_num [taxBrackets, payeLoop, payeTaxable, referencePAYE, min_def, max_def]
  · simp only [taxBrackets, payeLoop, payeTaxable, referencePAYE]
    norm_num
    rcases le_or_lt x 300000 with h1 | h1
    · rw [min_eq_left h1,
        min_eq_left (show x ≤ (600000:ℚ) by linarith),
        min_eq_left (show x ≤ (1100000:ℚ) by linarith),
        min_eq_left (show x ≤ (1600000:ℚ) by linarith),
        min_eq_left (show x ≤ (3200000:ℚ) by linarith),
        max_eq_right hx,
        max_eq_left (show x - (300000:ℚ) ≤ 0 by linarith),
        max_eq_left (show x - (600000:ℚ) ≤ 0 by linarith),
        max_eq_left (show x - (1100000:ℚ) ≤ 0 by linarith),
        max_eq_left (show x - (1600000:ℚ) ≤ 0 by linarith),
        max_eq_left (show x - (3200000:ℚ) ≤ 0 by linarith)]
      split_ifs <;> first | (exfalso; linarith) | ring1
    · rcases le_or_lt x 600000 with h2 | h2
      · rw [min_eq_right h1.le,
          min_eq_left (show x - (300000:ℚ) ≤ 300000 by linarith),
          min_eq_left h2,
          min_eq_left (show x ≤ (1100000:ℚ) by linarith),
          min_eq_left (show x ≤ (1600000:ℚ) by linarith),
          min_eq_left (show x ≤ (3200000:ℚ) by linarith),
          max_eq_right (show (0:ℚ) ≤ 300000 by norm_num),
          max_eq_right (show (0:ℚ) ≤ x - 300000 by linarith),
          max_eq_left (show x - (600000:ℚ) ≤ 0 by linarith),
          max_eq_left (show x - (1100000:ℚ) ≤ 0 by linarith),
          max_eq_left (show x - (1600000:ℚ) ≤ 0 by linarith),
          max_eq_left (show x - (3200000:ℚ) ≤ 0 by linarith)]
        split_ifs <;> first | (exfalso; linarith) | ring1
      · rcases le_or_lt x 1100000 with h3 | h3
        · rw [min_eq_right (show (300000:ℚ) ≤ x by linarith),
            min_eq_right (show (300000:ℚ) ≤ x - 300000 by linarith),
            min_eq_left (show x - 300000 - 300000 ≤ (500000:ℚ) by linarith),
            min_eq_right (show (600000:ℚ) ≤ x by linarith),
            min_eq_left h3,
            min_eq_left (show x ≤ (1600000:ℚ) by linarith),
            min_eq_left (show x ≤ (3200000:ℚ) by linarith),
            max_eq_right (show (0:ℚ) ≤ 300000 by norm_num),
            max_eq_right (show (0:ℚ) ≤ 600000 - 300000 by norm_num),
            max_eq_right (show (0:ℚ) ≤ x - 600000 by linarith),
            max_eq_left (show x - (1100000:ℚ) ≤ 0 by linarith),
            max_eq_left (show x - (1600000:ℚ) ≤ 0 by linarith),
            max_eq_left (show x - (3200000:ℚ) ≤ 0 by linarith)]
          split_ifs <;> first | (exfalso; linarith) | ring1
        · rcases le_or_lt x 1600000 with h4 | h4
          · rw [min_eq_right (show (300000:ℚ) ≤ x by linarith),
              min_eq_right (show (300000:ℚ) ≤ x - 300000 by linarith),
              min_eq_right (show (500000:ℚ) ≤ x - 300000 - 300000 by linarith),
              min_eq_left (show x - 300000 - 300000 - 500000 ≤ (500000:ℚ) by linarith),
              min_eq_right (show (600000:ℚ) ≤ x by linarith),
              min_eq_right (show (1100000:ℚ) ≤ x by linarith),
              min_eq_left h4,
              min_eq_left (show x ≤ (3200000:ℚ) by linarith),
              max_eq_right (show (0:ℚ) ≤ 300000 by norm_num),
              max_eq_right (show (0:ℚ) ≤ 600000 - 300000 by norm_num),
              max_eq_right (show (0:ℚ) ≤ 1100000 - 600000 by norm_num),
              max_eq_right (show (0:ℚ) ≤ x - 1100000 by linarith),
              max_eq_left (show x - (1600000:ℚ) ≤ 0 by linarith),
              max_eq_left (show x - (3200000:ℚ) ≤ 0 by linarith)]
            split_ifs <;> first | (exfalso; linarith) | ring1
          · rcases le_or_lt x 3200000 with h5 | h5
            · rw [min_eq_right (show (300000:ℚ) ≤ x by linarith),
                min_eq_right (show (300000:ℚ) ≤ x - 300000 by linarith),
                min_eq_right (show (500000:ℚ) ≤ x - 300000 - 300000 by linarith),
                min_eq_right (show (500000:ℚ) ≤ x - 300000 - 300000 - 500000 by linarith),
                min_eq_left
                  (show x - 300000 - 300000 - 500000 - 500000 ≤ (1600000:ℚ) by linarith),
                min_eq_right (show (600000:ℚ) ≤ x by linarith),
                min_eq_right (show (1100000:ℚ) ≤ x by linarith),
                min_eq_right (show (1600000:ℚ) ≤ x by linarith),
                min_eq_left h5,
                max_eq_right (show (0:ℚ) ≤ 300000 by norm_num),
                max_eq_right (show (0:ℚ) ≤ 600000 - 300000 by norm_num),
                max_eq_right (show (0:ℚ) ≤ 1100000 - 600000 by norm_num),
                max_eq_right (show (0:ℚ) ≤ 1600000 - 1100000 by norm_num),
                max_eq_right (show (0:ℚ) ≤ x - 1600000 by linarith),
                max_eq_left (show x - (3200000:ℚ) ≤ 0 by linarith)]
              split_ifs <;> first | (exfalso; linarith) | ring1
            · rw [min_eq_right (show (300000:ℚ) ≤ x by linarith),
                min_eq_right (show (300000:ℚ) ≤ x - 300000 by linarith),
                min_eq_right (show (500000:ℚ) ≤ x - 300000 - 300000 by linarith),
                min_eq_right (show (500000:ℚ) ≤ x - 300000 - 300000 - 500000 by linarith),
                min_eq_right
                  (show (1600000:ℚ) ≤ x - 300000 - 300000 - 500000 - 500000 by linarith),
                min_eq_right (show (600000:ℚ) ≤ x by linarith),
                min_eq_right (show (1100000:ℚ) ≤ x by linarith),
                min_eq_right (show (1600000:ℚ) ≤ x by linarith),
                min_eq_right (show (3200000:ℚ) ≤ x by linarith),
                max_eq_right (show (0:ℚ) ≤ 300000 by norm_num),
                max_eq_right (show (0:ℚ) ≤ 600000 - 300000 by norm_num),
                max_eq_right (show (0:ℚ) ≤ 1100000 - 600000 by norm_num),
                max_eq_right (show (0:ℚ) ≤ 1600000 - 1100000 by norm_num),
                max_eq_right (show (0:ℚ) ≤ 3200000 - 1600000 by norm_num),
                max_eq_right (show (0:ℚ) ≤ x - 3200000 by linarith)]
              split_ifs <;> first | (exfalso; linarith) | ring1

lemma calculatePAYE_eq_ref (x : ℚ) (hx : 0 ≤ x) : calculatePAYE x = referencePAYE x / 12 := by
  unfold calculatePAYE
  rw [payeLoop_eq_ref x hx]

lemma calculatePAYE_of_nonpos (x : ℚ) (hx : x ≤ 0) : calculatePAYE x = 0 := by
  simp [calculatePAYE, taxBrackets, payeLoop, hx]

lemma referencePAYE_nonneg (x : ℚ) : 0 ≤ referencePAYE x := by
  unfold referencePAYE
  refine add_nonneg (add_nonneg (add_nonneg (add_nonneg (add_nonneg ?_ ?_) ?_) ?_) ?_) ?_ <;>
    exact mul_nonneg (by norm_num) (le_max_left _ _)

lemma referencePAYE_mono {x y : ℚ} (h : x ≤ y) : referencePAYE x ≤ referencePAYE y := by
  unfold referencePAYE
  gcongr

lemma calculatePAYE_mono {x y : ℚ} (h : x ≤ y) : calculatePAYE x ≤ calculatePAYE y := by
  rcases le_or_lt x 0 with hx | hx
  · rw [calculatePAYE_of_nonpos x hx]
    rcases le_or_lt y 0 with hy | hy
    · rw [calculatePAYE_of_nonpos y hy]
    · rw [calculatePAYE_eq_ref y hy.le]
      exact div_nonneg (referencePAYE_nonneg y) (by norm_num)
  · rw [calculatePAYE_eq_ref x hx.le, calculatePAYE_eq_ref y (by linarith)]
    have := referencePAYE_mono h
    linarith

lemma nigerianPayeCascade_eq_ref (t : ℚ) (ht : 0 ≤ t) :
    nigerianPayeCascade t = referencePAYE t := by
  unfold nigerianPayeCascade referencePAYE
  rcases le_or_lt t 300000 with h1 | h1
  · rw [if_pos h1,
      min_eq_left h1,
      min_eq_left (show t ≤ (600000:ℚ) by linarith),
      min_eq_left (show t ≤ (1100000:ℚ) by linarith),
      min_eq_left (show t ≤ (1600000:ℚ) by linarith),
      min_eq_left (show t ≤ (3200000:ℚ) by linarith),
      max_eq_right ht,
      max_eq_left (show t - (300000:ℚ) ≤ 0 by linarith),
      max_eq_left (show t - (600000:ℚ) ≤ 0 by linarith),
      max_eq_left (show t - (1100000:ℚ) ≤ 0 by linarith),
      max_eq_left (show t - (1600000:ℚ) ≤ 0 by linarith),
      max_eq_left (show t - (3200000:ℚ) ≤ 0 by linarith)]
    ring
  · rw [if_neg (not_le.mpr h1), min_eq_right h1.le,
      max_eq_right (show (0:ℚ) ≤ 300000 by norm_num)]
    rcases le_or_lt t 600000 with h2 | h2
    · rw [if_pos h2,
        min_eq_left h2,
        min_eq_left (show t ≤ (1100000:ℚ) by linarith),
        min_eq_left (show t ≤ (1600000:ℚ) by linarith),
        min_eq_left (show t ≤ (3200000:ℚ) by linarith),
        max_eq_right (show (0:ℚ) ≤ t - 300000 by linarith),
        max_eq_left (show t - (600000:ℚ) ≤ 0 by linarith),
        max_eq_left (show t - (1100000:ℚ) ≤ 0 by linarith),
        max_eq_left (show t - (1600000:ℚ) ≤ 0 by linarith),
        max_eq_left (show t - (3200000:ℚ) ≤ 0 by linarith)]
      ring
    · rw [if_neg (not_le.mpr h2), min_eq_right h2.le,
        max_eq_right (show (0:ℚ) ≤ 600000 - 300000 by norm_num)]
      rcases le_or_lt t 1100000 with h3 | h3
      · rw [if_pos h3,
          min_eq_left h3,
          min_eq_left (show t ≤ (1600000:ℚ) by linarith),
          min_eq_left (show t ≤ (3200000:ℚ) by linarith),
          max_eq_right (show (0:ℚ) ≤ t - 600000 by linarith),
          max_eq_left (show t - (1100000:ℚ) ≤ 0 by linarith),
          max_eq_left (show t - (1600000:ℚ) ≤ 0 by linarith),
          max_eq_left (show t - (3200000:ℚ) ≤ 0 by linarith)]
        ring
      · rw [if_neg (not_le.mpr h3), min_eq_right h3.le,
          max_eq_right (show (0:ℚ) ≤ 1100000 - 600000 by norm_num)]
        rcases le_or_lt t 1600000 with h4 | h4
        · rw [if_pos h4,
            min_eq_left h4,
            min_eq_left (show t ≤ (3200000:ℚ) by linarith),
            max_eq_right (show (0:ℚ) ≤ t - 1100000 by linarith),
            max_eq_left (show t - (1600000:ℚ) ≤ 0 by linarith),
            max_eq_left (show t - (3200000:ℚ) ≤ 0 by linarith)]
          ring
        · rw [if_neg (not_le.mpr h4), min_eq_right h4.le,
            max_eq_right (show (0:ℚ) ≤ 1600000 - 1100000 by norm_num)]
          rcases le_or_lt t 3200000 with h5 | h5
          · rw [if_pos h5,
              min_eq_left h5,
              max_eq_right (show (0:ℚ) ≤ t - 1600000 by linarith),
              max_eq_left (show t - (3200000:ℚ) ≤ 0 by linarith)]
            ring
          · rw [if_neg (not_le.mpr h5), min_eq_right h5.le,
              max_eq_right (show (0:ℚ) ≤ 3200000 - 1600000 by norm_num),
              max_eq_right (show (0:ℚ) ≤ t - 3200000 by linarith)]
            ring

lemma jsRound_mono {x y : ℚ} (h : x ≤ y) : jsRound x ≤ jsRound y :=
  Int.floor_mono (by linarith)

lemma nigerianTaxable_nonneg (g a : ℚ) : 0 ≤ nigerianTaxable g a := by
  unfold nigerianTaxable
  exact le_max_left _ _

lemma nigerianTaxable_mono {a b1 b2 : ℚ} (h : b1 ≤ b2) :
    nigerianTaxable b1 a ≤ nigerianTaxable b2 a := by
  unfold nigerianTaxable nigerianCRA nigerianTotalIncome
  apply max_le_max (le_refl 0)
  rcases le_total ((b1 + a) * (1/100) + 200000) 2400000 with c1 | c1 <;>
    rcases le_total ((b2 + a) * (1/100) + 200000) 2400000 with c2 | c2
  · rw [min_eq_left c1, min_eq_left c2]; linarith
  · rw [min_eq_left c1, min_eq_right c2]; linarith
  · rw [min_eq_right c1, min_eq_left c2]; linarith
  · rw [min_eq_right c1, min_eq_right c2]; linarith

lemma nigerianPayeCascade_mono {t1 t2 : ℚ} (h0 : 0 ≤ t1) (h : t1 ≤ t2) :
    nigerianPayeCascade t1 ≤ nigerianPayeCascade t2 := by
  rw [nigerianPayeCascade_eq_ref t1 h0, nigerianPayeCascade_eq_ref t2 (h0.trans h)]
  exact referencePAYE_mono h

/-! ## Claim theorems -/

/-- C1: for every nonnegative annual taxable income, the annual PAYE tax
accumulated by the bracket walk of `calculatePAYE` (twelve times its
monthly result) equals the reference formula: the sum over the 2024
brackets of rate times `max 0 (min income upper - lower)`, with income
above 3,200,000 taxed at 24 percent with no ceiling. -/
theorem paye_bracket_walk_matches_reference (income : ℚ) (h : 0 ≤ income) :
    12 * calculatePAYE income = referencePAYE income := by
  rw [calculatePAYE_eq_ref income h]
  ring

/-- Witness for C1 at the annual income 4,200,000 of the end-to-end
example of the spec. -/
theorem paye_bracket_walk_matches_reference_witness :
    (0:ℚ) ≤ 4200000 ∧ 12 * calculatePAYE 4200000 = referencePAYE 4200000 :=
  ⟨by norm_num, paye_bracket_walk_matches_reference 4200000 (by norm_num)⟩

/-- C2 (code bug): the payroll route hands the monthly gross pay straight
to `calculatePAYE`, whose parameter is an annual income.  For the spec
example (basicSalary 300,000, allowances 50,000; monthly gross 350,000)
the route computes a monthly PAYE of 26500/12, while bracketing the
annualised income 4,200,000 and dividing by 12, as the claim and the
parameter name of the function demand, yields 800000/12. -/
theorem payroll_route_feeds_monthly_gross_to_brackets :
    (processPayrollEntry 300000 50000).paye = 26500 / 12 ∧
    calculatePAYE ((300000 + 50000) * 12) = 800000 / 12 ∧
    (26500:ℚ) / 12 ≠ 800000 / 12 := by
  refine ⟨?_, ?_, by norm_num⟩
  · norm_num [processPayrollEntry, calculatePAYE, payeLoop, taxBrackets, payeTaxable, min_def]
  · norm_num [calculatePAYE, payeLoop, taxBrackets, payeTaxable, min_def]

/-- C3 counterexample: in the payroll route the deduction total has no
pension term: at monthly gross 350,000 it differs from the total the
claim prescribes, which includes `grossPay * 0.08 = 28000`. -/
theorem payroll_route_total_omits_pension :
    (processPayrollEntry 300000 50000).totalDeductions ≠
      (processPayrollEntry 300000 50000).paye + (300000 + 50000) * (8/100) +
        (processPayrollEntry 300000 50000).nhf + (processPayrollEntry 300000 50000).nsitf +
        (processPayrollEntry 300000 50000).itf := by
  norm_num [processPayrollEntry, calculatePAYE, payeLoop, taxBrackets, payeTaxable, min_def]

/-- C3 amended: `calculateNigerianTaxes` computes a pension of 8 percent
of total income and rounds the sum `paye + pension + nhf + nsitf + itf`
into its deduction total, but the payroll route omits pension entirely:
its total is `paye + nhf + nsitf + itf`. -/
theorem pension_included_only_in_compliance_variant (g a : ℚ) :
    (calculateNigerianTaxes g a).pension =
      (jsRound (nigerianTotalIncome g a * (8/100)) : ℚ) ∧
    (calculateNigerianTaxes g a).totalDeductions =
      (jsRound (nigerianPayeRaw g a + nigerianPensionRaw g a + nigerianNhfRaw g a +
        nigerianNsitfRaw g a + nigerianItfRaw g a) : ℚ) ∧
    (processPayrollEntry g a).totalDeductions =
      (processPayrollEntry g a).paye + (processPayrollEntry g a).nhf +
        (processPayrollEntry g a).nsitf + (processPayrollEntry g a).itf :=
  ⟨rfl, rfl, rfl⟩

/-- C4 counterexample: the payroll route applies no NHF cap: at a monthly
gross of 5,000,000 it deducts 125,000, not the capped
`min(grossPay * 0.025, 100000) = 100000` the claim prescribes. -/
theorem payroll_route_nhf_exceeds_cap :
    (processPayrollEntry 5000000 0).nhf = 125000 ∧
    Min.min ((5000000:ℚ) * (25/1000)) 100000 = 100000 ∧
    (125000:ℚ) ≠ 100000 := by
  refine ⟨by norm_num [processPayrollEntry], by norm_num [min_def], by norm_num⟩

/-- C4 amended: only `calculateNigerianTaxes` caps NHF at 100,000 per
month (so its NHF never exceeds 100,000 and equals 100,000 at a total
income of 5,000,000); the payroll route deducts an uncapped 2.5 percent. -/
theorem nhf_capped_only_in_compliance_variant (g a : ℚ) :
    (calculateNigerianTaxes g a).nhf =
      (jsRound (Min.min (nigerianTotalIncome g a * (25/1000)) 100000) : ℚ) ∧
    (calculateNigerianTaxes g a).nhf ≤ 100000 ∧
    (calculateNigerianTaxes 5000000 0).nhf = 100000 ∧
    (processPayrollEntry g a).nhf = (g + a) * (25/1000) := by
  refine ⟨rfl, ?_, ?_, rfl⟩
  · have h1 : nigerianNhfRaw g a ≤ 100000 := min_le_right _ _
    have h2 : jsRound (nigerianNhfRaw g a) ≤ jsRound 100000 := jsRound_mono h1
    have h3 : jsRound (100000 : ℚ) = 100000 := by norm_num [jsRound]
    show ((jsRound (nigerianNhfRaw g a) : ℤ) : ℚ) ≤ 100000
    rw [h3] at h2
    exact_mod_cast h2
  · norm_num [calculateNigerianTaxes, nigerianNhfRaw, nigerianTotalIncome, jsRound, min_def]

/-- C5 counterexample: negative input raises nothing; the engine returns
a fully computed breakdown.  At basicSalary -1 the compliance variant
reports a pension of 0, an NHF of 0 and a net salary of -1. -/
theorem negative_income_returns_breakdown :
    (calculateNigerianTaxes (-1) 0).pension = 0 ∧
    (calculateNigerianTaxes (-1) 0).nhf = 0 ∧
    (calculateNigerianTaxes (-1) 0).netSalary = -1 := by
  refine ⟨?_, ?_, ?_⟩ <;>
    norm_num [calculateNigerianTaxes, nigerianTotalIncome, nigerianDeductionsRaw,
      nigerianPayeRaw, nigerianPensionRaw, nigerianNhfRaw, nigerianNsitfRaw, nigerianItfRaw,
      nigerianTaxable, nigerianCRA, nigerianPayeCascade, jsRound, min_def, max_def]

/-- C5 amended: negative input is not validated anywhere: `calculatePAYE`
silently returns 0 for every negative income (its loop exits at once) and
`calculateNigerianTaxes` computes a breakdown from the negative value. -/
theorem negative_income_silently_computed (x : ℚ) (h : x < 0) :
    calculatePAYE x = 0 ∧ (calculateNigerianTaxes x 0).grossSalary = x := by
  refine ⟨calculatePAYE_of_nonpos x h.le, ?_⟩
  show nigerianTotalIncome x 0 = x
  simp [nigerianTotalIncome]

/-- Witness for the amended C5 at basicSalary -1. -/
theorem negative_income_silently_computed_witness :
    (-1:ℚ) < 0 ∧ calculatePAYE (-1) = 0 ∧ (calculateNigerianTaxes (-1) 0).grossSalary = -1 :=
  ⟨by norm_num, (negative_income_silently_computed (-1) (by norm_num)).1,
    (negative_income_silently_computed (-1) (by norm_num)).2⟩

/-- C6 counterexample: in `calculateNigerianTaxes` the net salary and
the deduction total are rounded independently, so at basicSalary 4 and
allowances 0 (gross 4, unrounded deductions 1/2) the rounded parts sum
to 5, one more than the gross pay. -/
theorem compliance_rounding_breaks_net_identity :
    (calculateNigerianTaxes 4 0).grossSalary = 4 ∧
    (calculateNigerianTaxes 4 0).netSalary + (calculateNigerianTaxes 4 0).totalDeductions = 5 ∧
    (5:ℚ) ≠ 4 := by
  refine ⟨?_, ?_, by norm_num⟩ <;>
    norm_num [calculateNigerianTaxes, nigerianTotalIncome, nigerianDeductionsRaw,
      nigerianPayeRaw, nigerianPensionRaw, nigerianNhfRaw, nigerianNsitfRaw, nigerianItfRaw,
      nigerianTaxable, nigerianCRA, nigerianPayeCascade, jsRound, min_def, max_def]

/-- C6 amended: the payroll route performs no rounding, and there the
identity `netPay + totalDeductions = grossPay = basicSalary + allowances`
holds exactly for all inputs; `calculateNigerianTaxes` does not
guarantee it, as the counterexample at gross 4 shows. -/
theorem route_net_pay_identity (basicSalary allowances : ℚ) :
    (processPayrollEntry basicSalary allowances).netPay +
      (processPayrollEntry basicSalary allowances).totalDeductions =
      (processPayrollEntry basicSalary allowances).grossPay ∧
    (processPayrollEntry basicSalary allowances).grossPay = basicSalary + allowances := by
  constructor
  · simp only [processPayrollEntry]
    ring
  · rfl

/-- C7 counterexample: the claim requires rounding to 2 decimal places,
but `calculateNigerianTaxes` rounds to whole currency units: at a total
income of 5 the raw pension 0.4 is reported as 0, not as the two-decimal
value 2/5. -/
theorem pension_not_rounded_to_two_decimals :
    (calculateNigerianTaxes 5 0).pension = 0 ∧
    specRound2 (nigerianPensionRaw 5 0) = 2/5 ∧
    (0:ℚ) ≠ 2/5 := by
  refine ⟨?_, ?_, by norm_num⟩
  · norm_num [calculateNigerianTaxes, nigerianTotalIncome, nigerianPensionRaw, jsRound]
  · norm_num [specRound2, nigerianPensionRaw, nigerianTotalIncome, jsRound]

/-- C7 amended: every rounded monetary result of `calculateNigerianTaxes`
and of `calculateNigerianPAYE` is an integer amount of whole currency
units (Math.round), not a two-decimal value, while the monthly PAYE of
the payroll route is returned entirely unrounded. -/
theorem monetary_results_rounded_to_whole_units (g a gp p : ℚ) :
    (∃ k : ℤ, (calculateNigerianTaxes g a).paye = (k:ℚ)) ∧
    (∃ k : ℤ, (calculateNigerianTaxes g a).pension = (k:ℚ)) ∧
    (∃ k : ℤ, (calculateNigerianTaxes g a).nhf = (k:ℚ)) ∧
    (∃ k : ℤ, (calculateNigerianTaxes g a).nsitf = (k:ℚ)) ∧
    (∃ k : ℤ, (calculateNigerianTaxes g a).itf = (k:ℚ)) ∧
    (∃ k : ℤ, (calculateNigerianTaxes g a).totalDeductions = (k:ℚ)) ∧
    (∃ k : ℤ, (calculateNigerianTaxes g a).netSalary = (k:ℚ)) ∧
    (∃ k : ℤ, calculateNigerianPAYE gp p = (k:ℚ)) ∧
    (processPayrollEntry g a).paye = calculatePAYE (g + a) :=
  ⟨⟨_, rfl⟩, ⟨_, rfl⟩, ⟨_, rfl⟩, ⟨_, rfl⟩, ⟨_, rfl⟩, ⟨_, rfl⟩, ⟨_, rfl⟩, ⟨_, rfl⟩, rfl⟩

/-- C8: with allowances held fixed, increasing the basic salary never
decreases the PAYE, pension, NSITF or ITF deductions, in either the
compliance variant or the payroll route. -/
theorem deductions_monotone_in_basic_salary (a b1 b2 : ℚ) (h : b1 ≤ b2) :
    (calculateNigerianTaxes b1 a).paye ≤ (calculateNigerianTaxes b2 a).paye ∧
    (calculateNigerianTaxes b1 a).pension ≤ (calculateNigerianTaxes b2 a).pension ∧
    (calculateNigerianTaxes b1 a).nsitf ≤ (calculateNigerianTaxes b2 a).nsitf ∧
    (calculateNigerianTaxes b1 a).itf ≤ (calculateNigerianTaxes b2 a).itf ∧
    (processPayrollEntry b1 a).paye ≤ (processPayrollEntry b2 a).paye ∧
    (processPayrollEntry b1 a).nsitf ≤ (processPayrollEntry b2 a).nsitf ∧
    (processPayrollEntry b1 a).itf ≤ (processPayrollEntry b2 a).itf := by
  refine ⟨?_, ?_, ?_, ?_, ?_, ?_, ?_⟩
  · show ((jsRound (nigerianPayeRaw b1 a) : ℤ) : ℚ) ≤ ((jsRound (nigerianPayeRaw b2 a) : ℤ) : ℚ)
    have hr : nigerianPayeRaw b1 a ≤ nigerianPayeRaw b2 a := by
      unfold nigerianPayeRaw
      exact nigerianPayeCascade_mono (nigerianTaxable_nonneg b1 a) (nigerianTaxable_mono h)
    exact_mod_cast jsRound_mono hr
  · show ((jsRound (nigerianPensionRaw b1 a) : ℤ) : ℚ) ≤
      ((jsRound (nigerianPensionRaw b2 a) : ℤ) : ℚ)
    have hr : nigerianPensionRaw b1 a ≤ nigerianPensionRaw b2 a := by
      unfold nigerianPensionRaw nigerianTotalIncome
      linarith
    exact_mod_cast jsRound_mono hr
  · show ((jsRound (nigerianNsitfRaw b1 a) : ℤ) : ℚ) ≤ ((jsRound (nigerianNsitfRaw b2 a) : ℤ) : ℚ)
    have hr : nigerianNsitfRaw b1 a ≤ nigerianNsitfRaw b2 a := by
      unfold nigerianNsitfRaw nigerianTotalIncome
      linarith
    exact_mod_cast jsRound_mono hr
  · show ((jsRound (nigerianItfRaw b1 a) : ℤ) : ℚ) ≤ ((jsRound (nigerianItfRaw b2 a) : ℤ) : ℚ)
    have hr : nigerianItfRaw b1 a ≤ nigerianItfRaw b2 a := by
      unfold nigerianItfRaw nigerianTotalIncome
      linarith
    exact_mod_cast jsRound_mono hr
  · show calculatePAYE (b1 + a) ≤ calculatePAYE (b2 + a)
    exact calculatePAYE_mono (by linarith)
  · show (b1 + a) * (1/100) ≤ (b2 + a) * (1/100)
    linarith
  · show (b1 + a) * (1/100) ≤ (b2 + a) * (1/100)
    linarith

/-- Witness for C8 with allowances 0 and basic salaries 100 and 200. -/
theorem deductions_monotone_in_basic_salary_witness :
    (100:ℚ) ≤ 200 ∧
    ((calculateNigerianTaxes 100 0).paye ≤ (calculateNigerianTaxes 200 0).paye ∧
    (calculateNigerianTaxes 100 0).pension ≤ (calculateNigerianTaxes 200 0).pension ∧
    (calculateNigerianTaxes 100 0).nsitf ≤ (calculateNigerianTaxes 200 0).nsitf ∧
    (calculateNigerianTaxes 100 0).itf ≤ (calculateNigerianTaxes 200 0).itf ∧
    (processPayrollEntry 100 0).paye ≤ (processPayrollEntry 200 0).paye ∧
    (processPayrollEntry 100 0).nsitf ≤ (processPayrollEntry 200 0).nsitf ∧
    (processPayrollEntry 100 0).itf ≤ (processPayrollEntry 200 0).itf) :=
  ⟨by norm_num, deductions_monotone_in_basic_salary 0 100 200 (by norm_num)⟩

/-- C9: at basicSalary 0 and allowances 0 every field of the breakdown is
0, in both the compliance variant and the payroll route. -/
theorem zero_input_zero_breakdown :
    (calculateNigerianTaxes 0 0).grossSalary = 0 ∧
    (calculateNigerianTaxes 0 0).paye = 0 ∧
    (calculateNigerianTaxes 0 0).pension = 0 ∧
    (calculateNigerianTaxes 0 0).nhf = 0 ∧
    (calculateNigerianTaxes 0 0).nsitf = 0 ∧
    (calculateNigerianTaxes 0 0).itf = 0 ∧
    (calculateNigerianTaxes 0 0).totalDeductions = 0 ∧
    (calculateNigerianTaxes 0 0).netSalary = 0 ∧
    (processPayrollEntry 0 0).grossPay = 0 ∧
    (processPayrollEntry 0 0).paye = 0 ∧
    (processPayrollEntry 0 0).nhf = 0 ∧
    (processPayrollEntry 0 0).nsitf = 0 ∧
    (processPayrollEntry 0 0).itf = 0 ∧
    (processPayrollEntry 0 0).totalDeductions = 0 ∧
    (processPayrollEntry 0 0).netPay = 0 := by
  refine ⟨?_, ?_, ?_, ?_, ?_, ?_, ?_, ?_, ?_, ?_, ?_, ?_, ?_, ?_, ?_⟩ <;>
    norm_num [calculateNigerianTaxes, processPayrollEntry, nigerianTotalIncome,
      nigerianDeductionsRaw, nigerianPayeRaw, nigerianPensionRaw, nigerianNhfRaw,
      nigerianNsitfRaw, nigerianItfRaw, nigerianTaxable, nigerianCRA, nigerianPayeCascade,
      calculatePAYE, payeLoop, taxBrackets, payeTaxable, jsRound, min_def, max_def]

/-- C10: the compliance variant subtracts the consolidated relief
allowance `min(totalIncome * 0.01 + 200000, 2400000)` from the total
income and clamps at zero, so the taxable income fed to the brackets is
never negative, and a total income at or below the relief yields a PAYE
of 0. -/
theorem cra_clamps_taxable_income (g a : ℚ) (_hg : 0 ≤ g) (_ha : 0 ≤ a) :
    (calculateNigerianTaxes g a).consolidatedAllowance =
      Min.min ((g + a) * (1/100) + 200000) 2400000 ∧
    (calculateNigerianTaxes g a).taxableIncome =
      Max.max 0 ((g + a) - Min.min ((g + a) * (1/100) + 200000) 2400000) ∧
    0 ≤ (calculateNigerianTaxes g a).taxableIncome ∧
    (g + a ≤ Min.min ((g + a) * (1/100) + 200000) 2400000 →
      (calculateNigerianTaxes g a).paye = 0) := by
  refine ⟨rfl, rfl, nigerianTaxable_nonneg g a, fun hrel => ?_⟩
  have ht : nigerianTaxable g a = 0 := by
    unfold nigerianTaxable nigerianCRA nigerianTotalIncome
    rw [max_eq_left (sub_nonpos.mpr hrel)]
  show ((jsRound (nigerianPayeRaw g a) : ℤ) : ℚ) = 0
  unfold nigerianPayeRaw
  rw [ht]
  norm_num [nigerianPayeCascade, jsRound]

/-- Witness for C10 at grossSalary 100000 and allowances 0, where the
total income lies below the relief allowance of 201000. -/
theorem cra_clamps_taxable_income_witness :
    (0:ℚ) ≤ 100000 ∧ (0:ℚ) ≤ 0 ∧
    ((calculateNigerianTaxes 100000 0).consolidatedAllowance =
      Min.min ((100000 + 0) * (1/100) + 200000) 2400000 ∧
    (calculateNigerianTaxes 100000 0).taxableIncome =
      Max.max 0 ((100000 + 0) - Min.min ((100000 + 0) * (1/100) + 200000) 2400000) ∧
    0 ≤ (calculateNigerianTaxes 100000 0).taxableIncome ∧
    ((100000:ℚ) + 0 ≤ Min.min ((100000 + 0) * (1/100) + 200000) 2400000 →
      (calculateNigerianTaxes 100000 0).paye = 0)) :=
  ⟨by norm_num, le_refl 0, cra_clamps_taxable_income 100000 0 (by norm_num) (le_refl 0)⟩

end Resconate
